import Mathlib

/-!
# Verification of the glutin backend slice of `gluim`

Shallow embedding of `src/backend/glutin/mod.rs` (the `Display` type, its
constructors, `draw`, `rebuild`, the `NullBacked` backend, and the
`DisplayCreationError` plumbing), together with spec-modelled definitions for
the parts of the crate that the file uses but that are outside this slice
(`Frame`, `context::Context`, `IncompatibleOpenGl`, `SwapBuffersError`,
`debug::DebugCallbackBehavior`, the `backend::Backend` trait declaration and
the `Rc` reference-counting semantics).

Machine integers (`u32` dimensions) are modelled as `Nat`: every concrete
dimension in the program is far below `2^32`, and no arithmetic is performed
on them, so overflow cannot occur.

Backend calls are made observable by having the operations that touch the
backend return a trace of `BackendEvent`s; dimensions reported by a backend
may vary over time, so `get_framebuffer_dimensions` takes a time index
(`NullBacked` ignores it and always reports `(800, 600)`).
-/

/-- Modelled from the spec: `SwapBuffersError` is not under src/ (only its
name is imported there); the spec describes it as an opaque per-call error
surfaced from `swap_buffers`. -/
inductive SwapBuffersError
  | contextLost
  | alreadySwapped
  deriving DecidableEq

/-- Modelled from the spec: `IncompatibleOpenGl` is not under src/; the spec
says it carries a description of the unmet requirement. -/
structure IncompatibleOpenGl where
  description : String
  deriving DecidableEq

/-- Modelled from the spec: `debug::DebugCallbackBehavior` is not under src/;
the spec treats it as an opaque enumerated policy for driver diagnostics,
passed unchanged into `Context` construction. -/
inductive DebugCallbackBehavior
  | ignore
  | printAll
  | debugMessageOnError
  deriving DecidableEq

/-- The `Default::default()` debug behavior used by the argumentless
constructors. -/
def DebugCallbackBehavior.defaultBehavior : DebugCallbackBehavior :=
  DebugCallbackBehavior.debugMessageOnError

/-- Modelled from the spec: an opaque error from the windowing backend
(`glutin::CreationError`, an external crate type); the spec only requires
that it carry a description recoverable through the `cause` chain. -/
structure GlutinCreationError where
  description : String
  deriving DecidableEq

/-- Modelled from the spec: the `backend::Backend` trait declaration is not
under src/ (only `NullBacked`s implementation of it is); per the spec it is a
capability object with four operations: swap buffers, resolve a function
pointer by symbol name (null pointer when absent, modelled as address `0`),
report current framebuffer dimensions (truthful at any call time, hence
time-indexed), and report current-context status. -/
structure Backend where
  swap_buffers : Except SwapBuffersError Unit
  get_proc_address : String → Nat
  get_framebuffer_dimensions : Nat → Nat × Nat
  is_current : Bool

/-- `NullBacked` from src: swap succeeds, every symbol resolves to the null
pointer, the framebuffer is always `(800, 600)`, and the context is always
current. -/
def nullBacked : Backend where
  swap_buffers := Except.ok ()
  get_proc_address := fun _ => 0
  get_framebuffer_dimensions := fun _ => (800, 600)
  is_current := true

/-- Modelled from the spec: `context::Context` is not under src/; the spec
says it wraps exactly one backend instance, a cached check result (set once at
construction) and the debug policy. The `id` field models the identity of the
reference-counted allocation (`Rc` pointer identity): cloning a `Display`
shares the allocation, so it preserves `id`. -/
structure Context where
  id : Nat
  backend : Backend
  verified : Bool
  debug : DebugCallbackBehavior

/-- Modelled from the spec: `Context::new(backend, checked, debug)` runs the
compatibility verification against the externally defined required feature
set (here the abstract predicate `compat`) when `checked` is true, failing
with `IncompatibleOpenGl`; when `checked` is false it skips verification
unconditionally. `fresh` is the identity of the new shared allocation. -/
def Context.new (backend : Backend) (checked : Bool)
    (debug : DebugCallbackBehavior) (compat : Backend → Bool) (fresh : Nat) :
    Except IncompatibleOpenGl Context :=
  if checked && !(compat backend) then
    Except.error { description := "The OpenGL implementation is too old." }
  else
    Except.ok { id := fresh, backend := backend, verified := checked, debug := debug }

/-- Modelled from the spec: `Context::get_framebuffer_dimensions` forwards to
the backend with no caching at this layer. -/
def Context.get_framebuffer_dimensions (c : Context) (t : Nat) : Nat × Nat :=
  c.backend.get_framebuffer_dimensions t

/-- Observable calls into the backend, used to trace what the embedded
operations actually invoke. `resize` is the backend resize/reconfiguration
the spec describes for dimension changes. -/
inductive BackendEvent
  | getDims (result : Nat × Nat)
  | resize (wh : Nat × Nat)
  | swapBuffers (contextId : Nat)
  deriving DecidableEq

/-- Number of resize events in a trace. -/
def countResize (evs : List BackendEvent) : Nat :=
  evs.countP fun e => match e with
    | BackendEvent.resize _ => true
    | _ => false

/-- Number of swap-buffers events in a trace. -/
def countSwap (evs : List BackendEvent) : Nat :=
  evs.countP fun e => match e with
    | BackendEvent.swapBuffers _ => true
    | _ => false

/-- Frame lifecycle states from the spec's state machine: `active` (drawing
permitted) and the terminal `released` (swap already issued). -/
inductive FrameState
  | active
  | released
  deriving DecidableEq

/-- Modelled from the spec: `Frame` is not under src/; it holds a shared
reference to the `Context` it draws into and the framebuffer dimensions
captured at creation time, and starts `active`. -/
structure Frame where
  context : Context
  dimensions : Nat × Nat
  state : FrameState

/-- Modelled from the spec: `Frame::new(context, dims)` captures the shared
context and the dimensions and starts in the `active` state. -/
def Frame.new (c : Context) (wh : Nat × Nat) : Frame :=
  { context := c, dimensions := wh, state := FrameState.active }

/-- Modelled from the spec: a drawing call against a Frame draws into the
backbuffer and never swaps; it leaves the lifecycle state unchanged. -/
def Frame.drawCall (f : Frame) : Frame × List BackendEvent :=
  (f, [])

/-- `n` successive drawing calls against a Frame, with their combined
backend trace. -/
def Frame.drawCalls : Frame → Nat → Frame × List BackendEvent
  | f, 0 => (f, [])
  | f, n + 1 =>
    let fe := f.drawCall
    let rest := Frame.drawCalls fe.1 n
    (rest.1, fe.2 ++ rest.2)

/-- Modelled from the spec: releasing a Frame (its scoped end-of-use)
triggers the buffer swap on its context exactly once and moves the state
machine to the terminal `released` state; there is no transition back, and a
released Frame never swaps again. -/
def Frame.release (f : Frame) : Frame × List BackendEvent :=
  match f.state with
  | FrameState.active =>
    ({ f with state := FrameState.released }, [BackendEvent.swapBuffers f.context.id])
  | FrameState.released => (f, [])

/-- `Display` from src: a shared reference to the context, plus the
`last_framebuffer_dimensions` cell caching the last observed framebuffer
size. -/
structure Display where
  context : Context
  last_framebuffer_dimensions : Nat × Nat

/-- `Display::new_inner` from src: builds a `NullBacked` backend, reads its
framebuffer dimensions, creates the context (checked or not) and stores the
dimensions in the cache cell. `compat` and `fresh` are the environment
parameters of the spec-modelled `Context::new`. -/
def Display.new_inner (debug : DebugCallbackBehavior) (checked : Bool)
    (compat : Backend → Bool) (fresh : Nat) :
    Except IncompatibleOpenGl Display :=
  let glutin_backend := nullBacked
  let framebuffer_dimensions := glutin_backend.get_framebuffer_dimensions 0
  match Context.new glutin_backend checked debug compat fresh with
  | Except.error e => Except.error e
  | Except.ok context =>
    Except.ok { context := context, last_framebuffer_dimensions := framebuffer_dimensions }

/-- `Display::with_debug` from src: checked construction with a
caller-supplied debug policy. -/
def Display.with_debug (debug : DebugCallbackBehavior)
    (compat : Backend → Bool) (fresh : Nat) :
    Except IncompatibleOpenGl Display :=
  Display.new_inner debug true compat fresh

/-- `Display::unchecked_with_debug` from src: unchecked construction with a
caller-supplied debug policy. -/
def Display.unchecked_with_debug (debug : DebugCallbackBehavior)
    (compat : Backend → Bool) (fresh : Nat) :
    Except IncompatibleOpenGl Display :=
  Display.new_inner debug false compat fresh

/-- `Display::from_gl_window` from src: checked construction with the default
debug behavior. -/
def Display.from_gl_window (compat : Backend → Bool) (fresh : Nat) :
    Except IncompatibleOpenGl Display :=
  Display.with_debug DebugCallbackBehavior.defaultBehavior compat fresh

/-- `Display::unchecked` from src: unchecked construction with the default
debug behavior. -/
def Display.unchecked (compat : Backend → Bool) (fresh : Nat) :
    Except IncompatibleOpenGl Display :=
  Display.unchecked_with_debug DebugCallbackBehavior.defaultBehavior compat fresh

/-- `DisplayCreationError` from src: tagged union of the backend creation
error and the incompatibility error. -/
inductive DisplayCreationError
  | glutinCreationError (err : GlutinCreationError)
  | incompatibleOpenGl (err : IncompatibleOpenGl)
  deriving DecidableEq

/-- `Display::new` from src: `from_gl_window().map_err(From::from)`. -/
def Display.new (compat : Backend → Bool) (fresh : Nat) :
    Except DisplayCreationError Display :=
  match Display.from_gl_window compat fresh with
  | Except.error e => Except.error (DisplayCreationError.incompatibleOpenGl e)
  | Except.ok d => Except.ok d

/-- `Display::draw` from src: reads the current framebuffer dimensions
through the context (the only backend call it makes) and returns
`Frame::new(context.clone(), (w, h))`. It takes `&self` and never writes the
`last_framebuffer_dimensions` cell, so the returned display component is the
receiver unchanged. `t` is the time index at which the backend is queried. -/
def Display.draw (d : Display) (t : Nat) : Display × Frame × List BackendEvent :=
  let wh := d.context.get_framebuffer_dimensions t
  (d, Frame.new d.context wh, [BackendEvent.getDims wh])

/-- Opaque window configuration consumed only by `rebuild`
(`glutin::WindowBuilder`, an external crate type). -/
structure WindowBuilder where
  cfg : Nat

/-- Opaque context configuration consumed only by `rebuild`
(`glutin::ContextBuilder`, an external crate type). -/
structure ContextBuilder where
  cfg : Nat

/-- Opaque event source consumed only by `rebuild`
(`glutin::EventsLoop`, an external crate type). -/
structure EventsLoop where
  cfg : Nat

/-- `Display::rebuild` from src: the body is literally `Ok(())`; it takes
`&self` and ignores all three arguments, so the display is unchanged and no
backend operation is invoked (empty trace). -/
def Display.rebuild (d : Display) (wb : WindowBuilder) (cb : ContextBuilder)
    (el : EventsLoop) :
    Except DisplayCreationError Unit × Display × List BackendEvent :=
  let _ := wb
  let _ := cb
  let _ := el
  (Except.ok (), d, [])

/-- `impl Error for DisplayCreationError::description` from src: forwards to
the wrapped error's description in both variants. -/
def DisplayCreationError.description : DisplayCreationError → String
  | DisplayCreationError.glutinCreationError err => err.description
  | DisplayCreationError.incompatibleOpenGl err => err.description

/-- `impl Error for DisplayCreationError::cause` from src: returns `Some` of
the wrapped error in both variants (the trait object is modelled as a sum). -/
def DisplayCreationError.cause :
    DisplayCreationError → Option (Sum GlutinCreationError IncompatibleOpenGl)
  | DisplayCreationError.glutinCreationError err => some (Sum.inl err)
  | DisplayCreationError.incompatibleOpenGl err => some (Sum.inr err)

/-- `impl From of glutin::CreationError for DisplayCreationError` from src. -/
def DisplayCreationError.fromGlutinCreationError (err : GlutinCreationError) :
    DisplayCreationError :=
  DisplayCreationError.glutinCreationError err

/-- `impl From of IncompatibleOpenGl for DisplayCreationError` from src. -/
def DisplayCreationError.fromIncompatibleOpenGl (err : IncompatibleOpenGl) :
    DisplayCreationError :=
  DisplayCreationError.incompatibleOpenGl err

/-- `derive(Clone)` on `Display` from src: the `Rc<Context>` field is cloned
by sharing (same allocation, hence the same `Context` value including its
`id`), and the `Cell` is cloned by value. -/
def Display.clone (d : Display) : Display :=
  { context := d.context,
    last_framebuffer_dimensions := d.last_framebuffer_dimensions }

/-- `impl Deref for Display` from src: exposes the shared context. -/
def Display.deref (d : Display) : Context :=
  d.context

/-- `impl Facade for Display::get_context` from src: returns the shared
context reference. -/
def Display.get_context (d : Display) : Context :=
  d.context

/-- A stub backend fitting the spec's resize scenario: it reports
`(800, 600)` at time `0` and `(1024, 768)` from time `1` on. -/
def stubBackend : Backend where
  swap_buffers := Except.ok ()
  get_proc_address := fun _ => 0
  get_framebuffer_dimensions := fun t => if t = 0 then (800, 600) else (1024, 768)
  is_current := true

/-- A display over `stubBackend` whose cache holds the dimensions observed at
construction time (`(800, 600)` at time `0`). -/
def stubDisplay : Display where
  context := { id := 0, backend := stubBackend, verified := true,
               debug := DebugCallbackBehavior.defaultBehavior }
  last_framebuffer_dimensions := (800, 600)

/-- Modelled from the spec: the `Rc` reference-counting semantics ("shared
reference counted" — `Rc` is a standard-library type, not repository code).
A holder of the shared `Context` is a `Display` clone or an in-flight
`Frame`; cloning adds a holder, dropping removes one. -/
inductive HolderOp
  | cloneHolder
  | dropHolder
  deriving DecidableEq

/-- The strong reference count after a sequence of holder operations,
starting from `n` live holders. -/
def holdersAfter : Nat → List HolderOp → Nat
  | n, [] => n
  | n, HolderOp.cloneHolder :: ops => holdersAfter (n + 1) ops
  | n, HolderOp.dropHolder :: ops => holdersAfter (n - 1) ops

/-- A holder-operation sequence is valid when no drop occurs with zero live
holders (in Rust, a value cannot be dropped more often than it was cloned). -/
def validOps : Nat → List HolderOp → Bool
  | _, [] => true
  | n, HolderOp.cloneHolder :: ops => validOps (n + 1) ops
  | 0, HolderOp.dropHolder :: _ => false
  | n + 1, HolderOp.dropHolder :: ops => validOps n ops

/-- Number of clone operations in a holder-operation sequence. -/
def countCloneOps (ops : List HolderOp) : Nat :=
  ops.countP fun o => match o with
    | HolderOp.cloneHolder => true
    | HolderOp.dropHolder => false

/-- Number of drop operations in a holder-operation sequence. -/
def countDropOps (ops : List HolderOp) : Nat :=
  ops.countP fun o => match o with
    | HolderOp.cloneHolder => false
    | HolderOp.dropHolder => true

/-- Helper: drawing calls never change the Frame and produce no backend
events. -/
theorem drawCalls_eq_self (f : Frame) (n : Nat) : Frame.drawCalls f n = (f, []) := by
  induction n with
  | zero => rfl
  | succ n ih => simp [Frame.drawCalls, Frame.drawCall, ih]

/-- Helper: under a valid holder-operation sequence the reference count is
the initial count plus clones minus drops, and drops never exceed the
holders ever created. -/
theorem holdersAfter_count (ops : List HolderOp) : ∀ n : Nat, validOps n ops = true →
    holdersAfter n ops = n + countCloneOps ops - countDropOps ops ∧
    countDropOps ops ≤ n + countCloneOps ops := by
  induction ops with
  | nil =>
    intro n _
    simp [holdersAfter, countCloneOps, countDropOps]
  | cons o ops ih =>
    intro n hv
    cases o with
    | cloneHolder =>
      have h2 := ih (n + 1) (by simpa [validOps] using hv)
      simp [holdersAfter, countCloneOps, countDropOps, List.countP_cons] at h2 ⊢
      omega
    | dropHolder =>
      cases n with
      | zero => simp [validOps] at hv
      | succ m =>
        have h2 := ih m (by simpa [validOps] using hv)
        simp [holdersAfter, countCloneOps, countDropOps, List.countP_cons,
          Nat.succ_sub_one] at h2 ⊢
        omega

/-- C1: the claim says `draw()` compares the backend-reported dimensions to
`last_framebuffer_dimensions` and triggers exactly one backend resize and a
cache update when they differ. Evaluating the code at the failing input — a
display whose cache holds `(800, 600)` while the backend reports
`(1024, 768)` — shows `draw` performs no resize at all and leaves the cache
unchanged, contradicting the documented behavior on `draw` itself; only the
returned Frame carries the newly reported dimensions. -/
theorem draw_missing_resize_logic :
    stubDisplay.last_framebuffer_dimensions = (800, 600) ∧
    stubDisplay.context.get_framebuffer_dimensions 1 = (1024, 768) ∧
    countResize (stubDisplay.draw 1).2.2 = 0 ∧
    (stubDisplay.draw 1).1.last_framebuffer_dimensions = (800, 600) ∧
    ((stubDisplay.draw 1).2.1).dimensions = (1024, 768) := by
  refine ⟨rfl, rfl, ?_, rfl, rfl⟩
  decide

/-- C2: for every Frame created by `draw()`, exactly one swap-buffers call
occurs on its (shared) Context, triggered at release, regardless of how many
drawing calls were issued (including none); the state machine moves
`active → released` exactly once, and a released Frame stays released and
never swaps again. -/
theorem frame_release_swaps_once (d : Display) (t n : Nat) :
    ((d.draw t).2.1).context = d.context ∧
    ((d.draw t).2.1).state = FrameState.active ∧
    countSwap (Frame.drawCalls (d.draw t).2.1 n).2 = 0 ∧
    countSwap ((Frame.drawCalls (d.draw t).2.1 n).1.release).2 = 1 ∧
    ((Frame.drawCalls (d.draw t).2.1 n).1.release).1.state = FrameState.released ∧
    countSwap (((Frame.drawCalls (d.draw t).2.1 n).1.release).1.release).2 = 0 ∧
    (((Frame.drawCalls (d.draw t).2.1 n).1.release).1.release).1.state
      = FrameState.released := by
  refine ⟨rfl, rfl, ?_, ?_, ?_, ?_, ?_⟩ <;>
    simp [Display.draw, Frame.new, Frame.release, countSwap, drawCalls_eq_self]

/-- C3: the unchecked constructors skip verification and never fail with
`IncompatibleOpenGl` (for every debug behavior and every compatibility
verdict they return `Ok`), while each checked constructor fails with
`IncompatibleOpenGl` if and only if the backend lacks a required feature. -/
theorem unchecked_skips_verification (debug : DebugCallbackBehavior)
    (compat : Backend → Bool) (fresh : Nat) :
    (∃ d, Display.unchecked compat fresh = Except.ok d) ∧
    (∃ d, Display.unchecked_with_debug debug compat fresh = Except.ok d) ∧
    ((∃ e, Display.with_debug debug compat fresh = Except.error e) ↔
      compat nullBacked = false) ∧
    ((∃ e, Display.from_gl_window compat fresh = Except.error e) ↔
      compat nullBacked = false) ∧
    ((∃ e, Display.new compat fresh
        = Except.error (DisplayCreationError.incompatibleOpenGl e)) ↔
      compat nullBacked = false) := by
  cases h : compat nullBacked <;>
    simp [Display.unchecked, Display.unchecked_with_debug, Display.with_debug,
      Display.from_gl_window, Display.new, Display.new_inner, Context.new, h]

/-- C4: the claim says `last_framebuffer_dimensions` always equals the size
used to build the most recently issued Frame, never a stale value from
before a detected resize. Evaluating the code at the failing input — the
backend reports `(1024, 768)` while the cache holds `(800, 600)` — the Frame
issued by `draw` is built with `(1024, 768)` yet the cache still reads
`(800, 600)`: a stale value, because `draw` never writes the cell (nothing
in the code does after construction), contradicting the field's own
comment. -/
theorem last_dimensions_stale_after_draw :
    ((stubDisplay.draw 1).2.1).dimensions = (1024, 768) ∧
    (stubDisplay.draw 1).1.last_framebuffer_dimensions = (800, 600) ∧
    (stubDisplay.draw 1).1.last_framebuffer_dimensions
      ≠ ((stubDisplay.draw 1).2.1).dimensions := by
  refine ⟨rfl, rfl, ?_⟩
  decide

/-- C5: constructing a Display whose backend reports `(800, 600)` and
calling `draw()` yields a Frame capturing `(800, 600)`, and afterwards
`last_framebuffer_dimensions` reads `(800, 600)`. -/
theorem display_scenario_800_600 :
    ∃ d, Display.new (fun _ => true) 0 = Except.ok d ∧
      d.last_framebuffer_dimensions = (800, 600) ∧
      ((d.draw 0).2.1).dimensions = (800, 600) ∧
      (d.draw 0).1.last_framebuffer_dimensions = (800, 600) := by
  refine ⟨Display.mk
    (Context.mk 0 nullBacked true DebugCallbackBehavior.defaultBehavior)
    (800, 600), ?_, rfl, rfl, rfl⟩
  rfl

/-- Helper: whenever `new_inner` succeeds, the resulting display's context
wraps the fixed null backend. -/
theorem new_inner_backend (debug : DebugCallbackBehavior) (checked : Bool)
    (compat : Backend → Bool) (fresh : Nat) (d : Display)
    (hd : Display.new_inner debug checked compat fresh = Except.ok d) :
    d.context.backend = nullBacked := by
  by_cases h : (checked && !(compat nullBacked)) = true
  · simp [Display.new_inner, Context.new, h] at hd
  · simp [Display.new_inner, Context.new, h] at hd
    subst hd
    rfl

/-- C6: every constructor (`new`, `from_gl_window`, `unchecked`,
`with_debug`, `unchecked_with_debug`) installs the fixed null backend —
whatever debug behavior, compatibility verdict or allocation identity is in
play — and that backend swaps with `Ok(())`, resolves every symbol to the
null pointer, always reports `(800, 600)` and is always current; no
constructor takes a caller-supplied backend or windowing context. -/
theorem constructors_install_null_backend (debug : DebugCallbackBehavior)
    (compat : Backend → Bool) (fresh : Nat) :
    (∀ d, Display.new compat fresh = Except.ok d → d.context.backend = nullBacked) ∧
    (∀ d, Display.from_gl_window compat fresh = Except.ok d →
      d.context.backend = nullBacked) ∧
    (∀ d, Display.unchecked compat fresh = Except.ok d →
      d.context.backend = nullBacked) ∧
    (∀ d, Display.with_debug debug compat fresh = Except.ok d →
      d.context.backend = nullBacked) ∧
    (∀ d, Display.unchecked_with_debug debug compat fresh = Except.ok d →
      d.context.backend = nullBacked) ∧
    nullBacked.swap_buffers = Except.ok () ∧
    (∀ s, nullBacked.get_proc_address s = 0) ∧
    (∀ t, nullBacked.get_framebuffer_dimensions t = (800, 600)) ∧
    nullBacked.is_current = true := by
  refine ⟨?_, ?_, ?_, ?_, ?_, rfl, fun s => rfl, fun t => rfl, rfl⟩
  · intro d hd
    unfold Display.new at hd
    split at hd
    · simp at hd
    · next x heq =>
      injection hd with h1
      subst h1
      unfold Display.from_gl_window Display.with_debug at heq
      exact new_inner_backend _ _ _ _ _ heq
  · intro d hd
    unfold Display.from_gl_window Display.with_debug at hd
    exact new_inner_backend _ _ _ _ _ hd
  · intro d hd
    unfold Display.unchecked Display.unchecked_with_debug at hd
    exact new_inner_backend _ _ _ _ _ hd
  · intro d hd
    unfold Display.with_debug at hd
    exact new_inner_backend _ _ _ _ _ hd
  · intro d hd
    unfold Display.unchecked_with_debug at hd
    exact new_inner_backend _ _ _ _ _ hd

/-- Witness for C6 at concrete inputs: applying the theorem with the default
debug behavior, an always-compatible verdict and allocation identity 0, the
display produced by `Display::new` carries the null backend. -/
theorem constructors_install_null_backend_witness :
    (Display.mk (Context.mk 0 nullBacked true DebugCallbackBehavior.defaultBehavior)
      (800, 600)).context.backend = nullBacked :=
  (constructors_install_null_backend DebugCallbackBehavior.defaultBehavior
      (fun _ => true) 0).1
    (Display.mk (Context.mk 0 nullBacked true DebugCallbackBehavior.defaultBehavior)
      (800, 600)) rfl

/-- C7: the tagged `From` conversions into `DisplayCreationError` are
lossless: `cause()` returns the original underlying error and
`description()` equals the original error's description, for both the glutin
creation error and the incompatibility error. -/
theorem display_creation_error_round_trip (ge : GlutinCreationError)
    (ie : IncompatibleOpenGl) :
    (DisplayCreationError.fromGlutinCreationError ge).cause = some (Sum.inl ge) ∧
    (DisplayCreationError.fromGlutinCreationError ge).description = ge.description ∧
    (DisplayCreationError.fromIncompatibleOpenGl ie).cause = some (Sum.inr ie) ∧
    (DisplayCreationError.fromIncompatibleOpenGl ie).description = ie.description :=
  ⟨rfl, rfl, rfl, rfl⟩

/-- C8 counterexample: the claim says dimension mismatches are handled by
resizing; at a display whose cache `(800, 600)` differs from the
backend-reported `(1024, 768)`, `draw` performs no resize at all (it still
returns an active Frame rather than an error). -/
theorem draw_mismatch_not_resized :
    stubDisplay.context.get_framebuffer_dimensions 1
      ≠ stubDisplay.last_framebuffer_dimensions ∧
    countResize (stubDisplay.draw 1).2.2 = 0 ∧
    ((stubDisplay.draw 1).2.1).state = FrameState.active := by
  refine ⟨by decide, by decide, rfl⟩

/-- C8 (amended): `draw()` is total and never fails — for every display and
every time it returns a Frame (not a `Result`) capturing the
backend-reported dimensions, active and ready to draw, and leaves the
display untouched; a dimension mismatch never produces an error (and, per
C1, no resize occurs either). -/
theorem draw_total_never_fails (d : Display) (t : Nat) :
    ((d.draw t).2.1).dimensions = d.context.get_framebuffer_dimensions t ∧
    ((d.draw t).2.1).state = FrameState.active ∧
    (d.draw t).1 = d :=
  ⟨rfl, rfl, rfl⟩

/-- C9: for every window builder, context builder and events loop, `rebuild`
returns `Ok(())`, leaves the display (context and cache) unchanged and
invokes no backend operation. -/
theorem rebuild_is_noop (d : Display) (wb : WindowBuilder) (cb : ContextBuilder)
    (el : EventsLoop) :
    d.rebuild wb cb el = (Except.ok (), d, []) :=
  rfl

/-- C10: cloning a `Display` shares the same `Context` allocation rather
than duplicating it — the clone's context (also as seen through `Deref` and
`Facade::get_context`) is the very same shared instance, and a Frame issued
by `draw` shares it too; under the reference-counting semantics the context
stays allocated exactly as long as some holder (display clone or in-flight
frame) remains, i.e. its lifetime equals the longest holder. -/
theorem display_clone_shares_context (d : Display) (ops : List HolderOp)
    (h : validOps 1 ops = true) :
    (Display.clone d).context = d.context ∧
    (Display.clone d).deref = d.deref ∧
    (Display.clone d).get_context = d.get_context ∧
    ((d.draw 0).2.1).context = d.context ∧
    holdersAfter 1 ops = 1 + countCloneOps ops - countDropOps ops ∧
    (holdersAfter 1 ops = 0 ↔ countDropOps ops = 1 + countCloneOps ops) := by
  obtain ⟨h1, h2⟩ := holdersAfter_count ops 1 h
  refine ⟨rfl, rfl, rfl, rfl, h1, ?_⟩
  omega

/-- Witness for C10 at concrete inputs: one clone and two drops form a valid
holder sequence after which no holder remains and the count is zero. -/
theorem display_clone_shares_context_witness :
    (Display.clone stubDisplay).context = stubDisplay.context ∧
    (Display.clone stubDisplay).deref = stubDisplay.deref ∧
    (Display.clone stubDisplay).get_context = stubDisplay.get_context ∧
    ((stubDisplay.draw 0).2.1).context = stubDisplay.context ∧
    holdersAfter 1 [HolderOp.cloneHolder, HolderOp.dropHolder, HolderOp.dropHolder]
      = 1 + countCloneOps [HolderOp.cloneHolder, HolderOp.dropHolder, HolderOp.dropHolder]
        - countDropOps [HolderOp.cloneHolder, HolderOp.dropHolder, HolderOp.dropHolder] ∧
    (holdersAfter 1 [HolderOp.cloneHolder, HolderOp.dropHolder, HolderOp.dropHolder] = 0 ↔
      countDropOps [HolderOp.cloneHolder, HolderOp.dropHolder, HolderOp.dropHolder]
        = 1 + countCloneOps [HolderOp.cloneHolder, HolderOp.dropHolder, HolderOp.dropHolder]) :=
  display_clone_shares_context stubDisplay
    [HolderOp.cloneHolder, HolderOp.dropHolder, HolderOp.dropHolder] (by decide)
